import Mathlib

/-!
Verification development for the opsight / logs_querier services.

The Python sources `opsight.py` and `logs_querier.py` are shallowly embedded
below.  Python `datetime` values are modelled as microseconds since the Unix
epoch together with an optional timezone offset (`none` models a naive
datetime, which is what `datetime.utcnow()` returns).  `isoformat` and
`fromisoformat` are modelled faithfully at the level the services exercise
them: fixed-width zero-padded civil fields, a fractional part printed exactly
when the microsecond field is nonzero, and an offset suffix printed exactly
for aware datetimes.
-/

namespace DD

/-- Model of a Python `datetime`: absolute time in microseconds since the Unix
epoch, plus `tzOffsetMin = none` for naive values (the result of
`datetime.utcnow()`), or `some m` for an aware value with a UTC offset of `m`
minutes. -/
structure PyDateTime where
  usec : Int
  tzOffsetMin : Option Int
deriving DecidableEq

/-- `d - timedelta(microseconds := delta)`: subtraction keeps the tzinfo. -/
def sub (d : PyDateTime) (deltaUs : Int) : PyDateTime :=
  { d with usec := d.usec - deltaUs }

/-- `d + timedelta(microseconds := delta)`: addition keeps the tzinfo. -/
def add (d : PyDateTime) (deltaUs : Int) : PyDateTime :=
  { d with usec := d.usec + deltaUs }

/-- Decimal digit characters used by the fixed-width field renderings. -/
def digitChar : Nat → Char
  | 0 => '0'
  | 1 => '1'
  | 2 => '2'
  | 3 => '3'
  | 4 => '4'
  | 5 => '5'
  | 6 => '6'
  | 7 => '7'
  | 8 => '8'
  | 9 => '9'
  | _ => '0'

/-- Two-digit zero-padded rendering (`%02d`), as Python prints month, day,
hour, minute and second fields. -/
def twoDigits (n : Nat) : List Char :=
  [digitChar (n / 10 % 10), digitChar (n % 10)]

/-- Four-digit zero-padded rendering (`%04d`) for the year field. -/
def fourDigits (n : Nat) : List Char :=
  [digitChar (n / 1000 % 10), digitChar (n / 100 % 10),
   digitChar (n / 10 % 10), digitChar (n % 10)]

/-- Six-digit zero-padded rendering (`%06d`) for the microsecond field. -/
def sixDigits (n : Nat) : List Char :=
  [digitChar (n / 100000 % 10), digitChar (n / 10000 % 10),
   digitChar (n / 1000 % 10), digitChar (n / 100 % 10),
   digitChar (n / 10 % 10), digitChar (n % 10)]

/-- Wall-clock microseconds of a datetime: the civil fields Python stores and
prints.  For an aware value the stored fields are the UTC instant shifted by
the offset. -/
def wallUsec (d : PyDateTime) : Int :=
  d.usec + (match d.tzOffsetMin with
            | none => 0
            | some off => off * 60000000)

/-- Civil date from a day count relative to 1970-01-01 (proleptic Gregorian,
the algorithm of Howard Hinnant). -/
def civilFromDays (z0 : Int) : Int × Nat × Nat :=
  let z := z0 + 719468
  let era := z / 146097
  let doe := (z - era * 146097).toNat
  let yoe := (doe - doe / 1460 + doe / 36524 - doe / 146096) / 365
  let doy := doe - (365 * yoe + yoe / 4 - yoe / 100)
  let mp := (5 * doy + 2) / 153
  let d := doy - (153 * mp + 2) / 5 + 1
  let m := if mp < 10 then mp + 3 else mp - 9
  ((era * 400 : Int) + yoe + (if m ≤ 2 then 1 else 0), m, d)

/-- Offset suffix exactly as Python `isoformat` prints it for aware values:
`+HH:MM` or `-HH:MM`.  Naive values get no suffix. -/
def offsetChars : Option Int → List Char
  | none => []
  | some off =>
    (if off < 0 then '-' else '+') ::
      (twoDigits (off.natAbs / 60) ++ ':' :: twoDigits (off.natAbs % 60))

/-- Fractional-seconds part of `isoformat`: printed exactly when the
microsecond field is nonzero. -/
def fracChars (us : Nat) : List Char :=
  if us = 0 then [] else '.' :: sixDigits us

/-- Character list of `d.isoformat()`:
`YYYY-MM-DDTHH:MM:SS[.ffffff][+HH:MM]`, with the fractional part present
exactly when the microsecond field is nonzero, and the offset present exactly
when the value is aware. -/
def isoChars (d : PyDateTime) : List Char :=
  let wall := wallUsec d
  let us := (wall % 1000000).toNat
  let totalSec := wall / 1000000
  let sod := (totalSec % 86400).toNat
  let days := totalSec / 86400
  let ymd := civilFromDays days
  fourDigits ymd.1.toNat ++ ['-'] ++ twoDigits ymd.2.1 ++ ['-'] ++ twoDigits ymd.2.2 ++
    ['T'] ++ twoDigits (sod / 3600) ++ [':'] ++ twoDigits (sod % 3600 / 60) ++
    [':'] ++ twoDigits (sod % 60) ++ fracChars us ++ offsetChars d.tzOffsetMin

/-- `d.isoformat()` as a string. -/
def isoformat (d : PyDateTime) : String :=
  ⟨isoChars d⟩

/-- Does a rendered timestamp carry an explicit trailing timezone designator:
a final `Z`, or an `±HH:MM` offset suffix? -/
def hasTzSuffix (s : String) : Bool :=
  let r := s.toList.reverse
  (r.headD ' ' == 'Z') ||
    ((r.getD 2 ' ' == ':') && (r.getD 5 ' ' == '+' || r.getD 5 ' ' == '-'))

/-- Does a rendered timestamp end in the literal character `Z`? -/
def endsWithZ (s : String) : Bool :=
  s.toList.getLast? == some 'Z'

/-- Numeric value of a decimal digit character. -/
def digitVal (c : Char) : Option Nat :=
  if c.isDigit then some (c.toNat - 48) else none

/-- Parse exactly two decimal digits. -/
def parse2 : List Char → Option (Nat × List Char)
  | a :: b :: rest =>
    match digitVal a, digitVal b with
    | some x, some y => some (x * 10 + y, rest)
    | _, _ => none
  | _ => none

/-- Parse exactly four decimal digits. -/
def parse4 : List Char → Option (Nat × List Char)
  | a :: b :: c :: d :: rest =>
    match digitVal a, digitVal b, digitVal c, digitVal d with
    | some w, some x, some y, some z => some (w * 1000 + x * 100 + y * 10 + z, rest)
    | _, _, _, _ => none
  | _ => none

/-- Consume one expected character. -/
def expect (c : Char) : List Char → Option (List Char)
  | x :: rest => if x == c then some rest else none
  | [] => none

/-- Consume a maximal run of decimal digits. -/
def takeDigits : List Char → List Nat × List Char
  | c :: rest =>
    match digitVal c with
    | some v =>
      let p := takeDigits rest
      (v :: p.1, p.2)
    | none => ([], c :: rest)
  | [] => ([], [])

/-- Gregorian leap-year test. -/
def isLeapYear (y : Nat) : Bool :=
  (y % 4 == 0 && y % 100 != 0) || y % 400 == 0

/-- Number of days in a month. -/
def daysInMonth (y m : Nat) : Nat :=
  if m = 2 then (if isLeapYear y then 29 else 28)
  else if m = 4 ∨ m = 6 ∨ m = 9 ∨ m = 11 then 30
  else 31

/-- Day count relative to 1970-01-01 of a civil date (inverse of
`civilFromDays`). -/
def daysFromCivil (y0 : Int) (m d : Nat) : Int :=
  let y := y0 - (if m ≤ 2 then 1 else 0)
  let era := y / 400
  let yoe := (y - era * 400).toNat
  let mp := if m > 2 then m - 3 else m + 9
  let doy := (153 * mp + 2) / 5 + d - 1
  let doe := yoe * 365 + yoe / 4 - yoe / 100 + doy
  era * 146097 + (doe : Int) - 719468

/-- Parse the `[:MM[:SS[.ffffff]]]` tail of the time part; absent components
default to zero, the fractional part (one to six digits) is scaled to
microseconds. -/
def parseMSF : List Char → Option (Nat × Nat × Nat × List Char)
  | ':' :: r => do
    let (mi, r2) ← parse2 r
    if 59 < mi then none else
    match r2 with
    | ':' :: r3 => do
      let (ss, r4) ← parse2 r3
      if 59 < ss then none else
      match r4 with
      | '.' :: r5 =>
        let p := takeDigits r5
        if p.1.length = 0 ∨ 6 < p.1.length then none
        else some (mi, ss, (p.1.foldl (fun a d => a * 10 + d) 0) * 10 ^ (6 - p.1.length), p.2)
      | _ => some (mi, ss, 0, r4)
    | _ => some (mi, 0, 0, r2)
  | r => some (0, 0, 0, r)

/-- Parse the optional trailing UTC-offset designator `±HH:MM`; the whole
remainder must be consumed. -/
def parseOffset : List Char → Option (Option Int)
  | [] => some none
  | c :: r =>
    if c == '+' || c == '-' then do
      let (oh, r2) ← parse2 r
      let r3 ← expect ':' r2
      let (om, r4) ← parse2 r3
      if 59 < om then none else
      if r4.isEmpty then
        let total : Int := (oh : Int) * 60 + om
        if total < 1440 then some (some (if c == '-' then -total else total)) else none
      else none
    else none

/-- Model of `datetime.fromisoformat` on the grammar this program exercises:
`YYYY-MM-DD[<sep>HH[:MM[:SS[.ffffff]]][+HH:MM]]`, range-checked civil fields,
any single separator character between date and time.  A parsed offset makes
the value aware; otherwise it is naive. -/
def fromisoformat (s : String) : Option PyDateTime := do
  let cs := s.toList
  let (y, r1) ← parse4 cs
  let r2 ← expect '-' r1
  let (mo, r3) ← parse2 r2
  let r4 ← expect '-' r3
  let (da, r5) ← parse2 r4
  if y < 1 ∨ mo < 1 ∨ 12 < mo ∨ da < 1 ∨ daysInMonth y mo < da then none else
  match r5 with
  | [] => some ⟨daysFromCivil y mo da * 86400000000, none⟩
  | _sep :: r6 => do
    let (hh, r7) ← parse2 r6
    if 23 < hh then none else
    let (mi, ss, us, r8) ← parseMSF r7
    let off ← parseOffset r8
    let wall : Int :=
      daysFromCivil y mo da * 86400000000 +
        ((hh : Int) * 3600 + (mi : Int) * 60 + ss) * 1000000 + us
    match off with
    | none => some ⟨wall, none⟩
    | some o => some ⟨wall - o * 60000000, some o⟩

/-- One step of the character-level `Z` to `+00:00` replacement. -/
def replaceZStep (c : Char) (acc : List Char) : List Char :=
  if c == 'Z' then '+' :: '0' :: '0' :: ':' :: '0' :: '0' :: acc else c :: acc

/-- Python `s.replace` of the single character `Z` by `+00:00`, at character
level: every occurrence is replaced. -/
def replaceZChars (l : List Char) : List Char :=
  l.foldr replaceZStep []

/-- The timestamp-normalization step the handlers perform before parsing:
`s.replace(Z, +00:00)`. -/
def replaceZ (s : String) : String :=
  ⟨replaceZChars s.toList⟩

/-- The absolute-timestamp resolution used by the handlers:
`datetime.fromisoformat(s.replace(Z, +00:00))`. -/
def parse_timestamp (s : String) : Option PyDateTime :=
  fromisoformat (replaceZ s)

end DD

-- sanity examples for the parser
example : DD.parse_timestamp "2024-01-01T00:00:00Z" = some ⟨1704067200000000, some 0⟩ := rfl

example : DD.parse_timestamp "2024-01-01T00:00:00+00:00" = some ⟨1704067200000000, some 0⟩ := rfl

example : DD.parse_timestamp "2024-01-01T05:30:00+05:30" = some ⟨1704067200000000, some 330⟩ := rfl

example : DD.parse_timestamp "2024-01-01T00:00:00.123456" = some ⟨1704067200123456, none⟩ := rfl

example : DD.parse_timestamp "2024-13-01T00:00:00Z" = none := rfl

example : DD.parse_timestamp "not-a-time" = none := rfl

example : DD.isoformat ⟨1704067200000000, some 0⟩ = "2024-01-01T00:00:00+00:00" := rfl

-- sanity examples for the datetime rendering
example : DD.isoformat ⟨0, none⟩ = "1970-01-01T00:00:00" := rfl

example : DD.isoformat ⟨1704067199000000, none⟩ = "2023-12-31T23:59:59" := rfl

example : DD.isoformat ⟨1700000000123456, none⟩ = "2023-11-14T22:13:20.123456" := rfl

example : DD.isoformat ⟨1700000000000000, some 0⟩ = "2023-11-14T22:13:20+00:00" := rfl

namespace Model

/-- One search call handed to `dd_client.search_logs`: the arguments of
`search_logs(query, start_iso, end_iso, limit)`. -/
structure BackendCall where
  query : String
  fromTime : String
  toTime : String
  limit : Int
deriving DecidableEq

/-- The remote backend as seen through one search call: success, or the
exception message raised by `DatadogLogsClient.search_logs`. -/
abbrev Backend : Type :=
  BackendCall → Except String Unit

/-- The JSON body of a successful search response (the pass-through `data`
field is not modelled; no claim inspects it). -/
structure SuccessBody where
  query : String
  timerangeEcho : Option String
  startIso : String
  endIso : String
deriving DecidableEq

/-- A handler response: `200` with a success body, or an error status with an
`error` message. -/
inductive HResp where
  | ok (body : SuccessBody)
  | err (status : Nat) (error : String)
deriving DecidableEq

/-- Python truthiness of an optional string request field, as used by
`all([service, timerange])`: absent (`None`) and the empty string are falsy. -/
def truthy : Option String → Bool
  | none => false
  | some s => !(s == "")

/-- The shared tail of every search handler: build the call, invoke the
backend, and wrap success as the `success: true` envelope or failure as a
500 `Failed to query Datadog` error.  The list records the calls made. -/
def dispatch (query startIso endIso : String) (timerangeEcho : Option String)
    (limit : Int) (backend : Backend) : HResp × List BackendCall :=
  match backend ⟨query, startIso, endIso, limit⟩ with
  | .ok _ =>
    (.ok ⟨query, timerangeEcho, startIso, endIso⟩, [⟨query, startIso, endIso, limit⟩])
  | .error e =>
    (.err 500 ("Failed to query Datadog: " ++ e), [⟨query, startIso, endIso, limit⟩])

end Model

namespace Service

/-- The `timerange_map` dictionary of `search_logs_with_timerange` (identical
in `opsight.py` and `logs_querier.py`), with each `timedelta` expressed in
microseconds.  Lookup order follows the dictionary. -/
def timerangeDurationUs (t : String) : Option Int :=
  if t == "1h" then some 3600000000
  else if t == "30m" then some 1800000000
  else if t == "1d" then some 86400000000
  else if t == "7d" then some 604800000000
  else if t == "15m" then some 900000000
  else if t == "4h" then some 14400000000
  else if t == "24h" then some 86400000000
  else none

/-- The 400 message for an unrecognized timerange token, as formatted from the
dictionary keys. -/
def invalidTimerangeMsg : String :=
  "Invalid timerange. Supported values: [\u00271h\u0027, \u002730m\u0027, " ++
    "\u00271d\u0027, \u00277d\u0027, \u002715m\u0027, \u00274h\u0027, \u002724h\u0027]"

/-- The relative-window resolution of `search_logs_with_timerange`:
`now = datetime.utcnow()` (naive), `start_time = now - timerange_map[t]`,
`end_time = now`. -/
def resolveTimerange (nowUs : Int) (t : String) : Option (DD.PyDateTime × DD.PyDateTime) :=
  match timerangeDurationUs t with
  | none => none
  | some d => some (DD.sub ⟨nowUs, none⟩ d, ⟨nowUs, none⟩)

/-- Query construction shared by the service-oriented handlers:
`service:<service>`, space-joined with the optional extra query. -/
def buildQuery (service additionalQuery : String) : String :=
  "service:" ++ service ++ (if additionalQuery == "" then "" else " " ++ additionalQuery)

/-- The JSON body accepted by `POST /logs/search/timerange`. -/
structure TimerangeRequest where
  service : Option String
  timerange : Option String
  limit : Option Int
  query : Option String
deriving DecidableEq

/-- The `/logs/search/timerange` handler, defined identically in `opsight.py`
and `logs_querier.py`.  `body = none` models a missing or falsy JSON payload;
`nowUs` is the value of `datetime.utcnow()` at resolution time. -/
def search_logs_with_timerange (body : Option TimerangeRequest) (nowUs : Int)
    (backend : Model.Backend) : Model.HResp × List Model.BackendCall :=
  match body with
  | none => (.err 400 "JSON payload required", [])
  | some data =>
    if !(Model.truthy data.service && Model.truthy data.timerange) then
      (.err 400 "Missing required parameters: service, timerange", [])
    else
      match resolveTimerange nowUs (data.timerange.getD "") with
      | none => (.err 400 invalidTimerangeMsg, [])
      | some (startT, endT) =>
        let limit := data.limit.getD 50
        let query := buildQuery (data.service.getD "") (data.query.getD "")
        Model.dispatch query (DD.isoformat startT) (DD.isoformat endT)
          (some (data.timerange.getD "")) limit backend

end Service

namespace Opsight

/-- The search payload `opsight.py` builds for the v2 search API: the page
limit is clamped with `min(limit, 1000)`. -/
structure SearchPayloadV2 where
  query : String
  fromTime : String
  toTime : String
  sort : String
  pageLimit : Int
deriving DecidableEq

/-- `DatadogLogsClient.search_logs` payload construction in `opsight.py`. -/
def search_logs_payload (query fromTime toTime : String) (limit : Int) : SearchPayloadV2 :=
  ⟨query, fromTime, toTime, "-timestamp", min limit 1000⟩

/-- The JSON body accepted by the opsight `POST /logs/search` route. -/
structure SearchRequest where
  query : Option String
  start_time : Option String
  end_time : Option String
  limit : Option Int
deriving DecidableEq

/-- The defaulted window of the opsight `/logs/search` route:
`start_time = now - timedelta(hours=1)`, `end_time = start_time +
timedelta(minutes=5)` (in microseconds). -/
def defaultWindow (nowUs : Int) : Int × Int :=
  (nowUs - 3600000000, nowUs - 3600000000 + 300000000)

/-- The 400 message for an unparsable timestamp (the code appends the Python
exception text, which is not modelled). -/
def invalidTimestampMsg : String :=
  "Invalid timestamp format. Use ISO format (e.g., \u00272024-01-01T00:00:00Z\u0027)"

/-- The opsight `/logs/search` handler.  `request.get_json() or` empty-dict makes a
missing body equivalent to an empty object, so `body = none` behaves as a
request with every field absent.  The defaulted branch is taken whenever
`start_time` or `end_time` is absent; both branches append a literal `Z`
to the rendered instants. -/
def search_logs (body : Option SearchRequest) (nowUs : Int)
    (backend : Model.Backend) : Model.HResp × List Model.BackendCall :=
  let data := body.getD ⟨none, none, none, none⟩
  let query := data.query.getD "datadog-agent"
  let limit := data.limit.getD 5
  if data.start_time.isNone || data.end_time.isNone then
    let w := defaultWindow nowUs
    Model.dispatch query (DD.isoformat ⟨w.1, none⟩ ++ "Z") (DD.isoformat ⟨w.2, none⟩ ++ "Z")
      none limit backend
  else
    match DD.parse_timestamp (data.start_time.getD ""),
          DD.parse_timestamp (data.end_time.getD "") with
    | some sdt, some edt =>
      Model.dispatch query (DD.isoformat sdt ++ "Z") (DD.isoformat edt ++ "Z")
        none limit backend
    | _, _ => (.err 400 invalidTimestampMsg, [])

/-- A submitted log entry: a JSON object (an open string-keyed record), or a
non-object value. -/
inductive LogVal where
  | obj (fields : List (String × String))
  | nonobj
deriving DecidableEq

/-- The `logs` field of a submission: a single value or an array
(`if not isinstance(logs, list): logs = [logs]`). -/
inductive LogsField where
  | single (v : LogVal)
  | array (vs : List LogVal)
deriving DecidableEq

/-- Python dict assignment `e[k] = v`: replace in place if the key exists,
append otherwise. -/
def dictSet (e : List (String × String)) (k v : String) : List (String × String) :=
  if (e.lookup k).isSome then e.map (fun p => if p.1 = k then (k, v) else p)
  else e ++ [(k, v)]

/-- The service-namespacing step of `submit_logs`: default an absent
`service` to `opsight`; rewrite a different value to `opsight.<original>`;
leave `opsight` itself unchanged. -/
def processServiceField (log : List (String × String)) : List (String × String) :=
  match log.lookup "service" with
  | none => dictSet log "service" "opsight"
  | some s => if s == "opsight" then log else dictSet log "service" ("opsight." ++ s)

/-- The per-entry validation and mutation loop of `submit_logs`: a non-object
entry or an entry without `message` fails the whole batch with the
corresponding 400 message; otherwise every entry is service-namespaced. -/
def processLogs : List LogVal → Except String (List (List (String × String)))
  | [] => .ok []
  | .nonobj :: _ => .error "Each log entry must be a JSON object"
  | .obj e :: rest =>
    if (e.lookup "message").isSome then
      (processLogs rest).map (fun es => processServiceField e :: es)
    else .error "Each log entry must contain a \u0027message\u0027 field"

/-- The submission backend as seen through one `submit_log` call. -/
abbrev SubmitBackend : Type :=
  List (List (String × String)) → Except String Unit

/-- `if not isinstance(logs, list): logs = [logs]`: a single submitted value
becomes a one-element batch. -/
def normalizeLogs : LogsField → List LogVal
  | .single v => [v]
  | .array vs => vs

/-- A `/logs/submit` response. -/
inductive SubmitResp where
  | ok (message : String)
  | err (status : Nat) (error : String)
deriving DecidableEq

/-- The opsight `/logs/submit` handler.  `body = none` models a missing payload
or one without a `logs` key.  The second component records the batches handed
to `dd_client.submit_log`. -/
def submit_logs (body : Option LogsField) (backend : SubmitBackend) :
    SubmitResp × List (List (List (String × String))) :=
  match body with
  | none => (.err 400 "JSON payload with \u0027logs\u0027 array required", [])
  | some lf =>
    let logs := normalizeLogs lf
    match processLogs logs with
    | .error m => (.err 400 m, [])
    | .ok entries =>
      match backend entries with
      | .ok _ => (.ok ("Successfully submitted " ++ toString logs.length ++ " log(s)"), [entries])
      | .error e => (.err 500 ("Failed to submit logs to Datadog: " ++ e), [entries])

end Opsight

namespace LogsQuerier

/-- The search payload `logs_querier.py` builds for the v1 search API: the
caller-requested limit is transmitted unchanged. -/
structure SearchPayloadV1 where
  query : String
  fromTime : String
  toTime : String
  sort : String
  limit : Int
deriving DecidableEq

/-- `DatadogLogsClient.search_logs` payload construction in
`logs_querier.py`. -/
def search_logs_payload (query fromTime toTime : String) (limit : Int) : SearchPayloadV1 :=
  ⟨query, fromTime, toTime, "timestamp", limit⟩

/-- The JSON body accepted by the logs_querier `POST /logs/search` route. -/
structure QSearchRequest where
  service : Option String
  start_time : Option String
  end_time : Option String
  limit : Option Int
  query : Option String
deriving DecidableEq

/-- The logs_querier `/logs/search` handler: requires truthy `service`,
`start_time` and `end_time`, parses the timestamps with the `Z`-to-offset
replacement, and renders the instants with plain `isoformat()` (no appended
`Z`). -/
def search_logs (body : Option QSearchRequest) (backend : Model.Backend) :
    Model.HResp × List Model.BackendCall :=
  match body with
  | none => (.err 400 "JSON payload required", [])
  | some data =>
    if !(Model.truthy data.service && Model.truthy data.start_time &&
         Model.truthy data.end_time) then
      (.err 400 "Missing required parameters: service, start_time, end_time", [])
    else
      let limit := data.limit.getD 50
      let query := Service.buildQuery (data.service.getD "") (data.query.getD "")
      match DD.parse_timestamp (data.start_time.getD ""),
            DD.parse_timestamp (data.end_time.getD "") with
      | some sdt, some edt =>
        Model.dispatch query (DD.isoformat sdt) (DD.isoformat edt) none limit backend
      | _, _ => (.err 400 Opsight.invalidTimestampMsg, [])

end LogsQuerier

namespace Heartbeat

/-- What can go wrong inside one tick of `periodic_logger`: building the
status record, the backend submission, or the local structured-log write. -/
structure TickEnv where
  statusBuildRaises : Bool
  submitRaises : Bool
  localLogRaises : Bool
deriving DecidableEq

/-- The exception classes a tick can raise. -/
inductive PyErr where
  | statusBuildError
  | submitError
  | localLogError
deriving DecidableEq

/-- The `dd_client.submit_log(status_log)` attempt. -/
def submitAttempt (env : TickEnv) : Except PyErr Unit :=
  if env.submitRaises then .error .submitError else .ok ()

/-- The body of one `while True` iteration of `periodic_logger` up to the
outer `except`: build the status record, attempt the submission inside its
own `try/except` (whose handler logs and falls through), then write the
local log. -/
def tickBody (env : TickEnv) : Except PyErr Unit :=
  if env.statusBuildRaises then .error .statusBuildError
  else
    let afterSubmit : Except PyErr Unit :=
      match submitAttempt env with
      | .ok _ => .ok ()
      | .error _ => .ok ()
    match afterSubmit with
    | .ok _ => if env.localLogRaises then .error .localLogError else .ok ()
    | .error e => .error e

/-- The observable outcome of one iteration: the loop continued (and whether
it slept before the next tick), or the loop terminated. -/
inductive StepOutcome where
  | continued (slept : Bool)
  | crashed
deriving DecidableEq

/-- One full iteration of `periodic_logger`: the body under the outer
`try/except`, whose handler logs the error and sleeps; both paths end in
`time.sleep(LOG_INTERVAL_SECONDS)` and fall through to the next iteration. -/
def periodicStep (env : TickEnv) : StepOutcome :=
  match tickBody env with
  | .ok _ => .continued true
  | .error _ => .continued true

/-- The loop as a state machine over tick counts. -/
inductive LoopState where
  | running
  | dead
deriving DecidableEq

/-- State of `periodic_logger` after `n` iterations with per-iteration
failure environments `envs`. -/
def periodicRun (envs : Nat → TickEnv) : Nat → LoopState
  | 0 => .running
  | n + 1 =>
    match periodicRun envs n with
    | .dead => .dead
    | .running =>
      match periodicStep (envs n) with
      | .continued _ => .running
      | .crashed => .dead

end Heartbeat

namespace DD

theorem digitChar_isDigit (n : Nat) : (digitChar n).isDigit = true := by
  unfold digitChar
  split <;> decide

theorem beq_false_of_isDigit {c c2 : Char} (h : c.isDigit = true)
    (h2 : c2.isDigit = false) : (c == c2) = false := by
  cases hb : (c == c2) with
  | false => rfl
  | true =>
    have hc : c = c2 := eq_of_beq hb
    rw [hc] at h
    rw [h] at h2
    exact Bool.noConfusion h2

theorem digitChar_beq_Z (n : Nat) : (digitChar n == 'Z') = false :=
  beq_false_of_isDigit (digitChar_isDigit n) (by decide)

theorem digitChar_beq_colon (n : Nat) : (digitChar n == ':') = false :=
  beq_false_of_isDigit (digitChar_isDigit n) (by decide)

theorem hasTzSuffix_time_tail (A : List Char) (mi ss us : Nat) :
    hasTzSuffix ⟨A ++ [':'] ++ twoDigits mi ++ [':'] ++ twoDigits ss ++
      fracChars us ++ offsetChars none⟩ = false := by
  unfold hasTzSuffix fracChars twoDigits sixDigits offsetChars
  by_cases h : us = 0
  · simp [h, String.toList, List.reverse_append, digitChar_beq_Z, digitChar_beq_colon]
  · simp [h, String.toList, List.reverse_append, digitChar_beq_Z, digitChar_beq_colon]

theorem hasTzSuffix_isoformat_naive (u : Int) :
    hasTzSuffix (isoformat ⟨u, none⟩) = false := by
  unfold isoformat isoChars
  exact hasTzSuffix_time_tail _ _ _ _

theorem endsWithZ_append (s : String) : endsWithZ (s ++ "Z") = true := by
  unfold endsWithZ
  have h : (s ++ "Z").toList = s.toList ++ ['Z'] := by simp [String.toList]
  rw [h]
  simp

theorem foldr_replaceZStep_of_not_mem {l : List Char} (h : 'Z' ∉ l)
    (acc : List Char) : l.foldr replaceZStep acc = l ++ acc := by
  induction l with
  | nil => rfl
  | cons c t ih =>
    have hc : c ≠ 'Z' := by
      intro e
      subst e
      exact h (List.mem_cons_self _ _)
    have ht : 'Z' ∉ t := fun m => h (List.mem_cons_of_mem c m)
    simp [List.foldr_cons, replaceZStep, hc, ih ht]

theorem replaceZ_append_Z (s : String) (h : 'Z' ∉ s.toList) :
    replaceZ (s ++ "Z") = s ++ "+00:00" := by
  unfold replaceZ replaceZChars
  have hl : (s ++ "Z").toList = s.toList ++ ['Z'] := by simp [String.toList]
  rw [hl, List.foldr_append]
  have h1 : List.foldr replaceZStep [] ['Z'] = ['+', '0', '0', ':', '0', '0'] := rfl
  rw [h1, foldr_replaceZStep_of_not_mem h]
  cases s with
  | mk data => rfl

theorem replaceZ_id_of_no_Z (s : String) (h : 'Z' ∉ s.toList) :
    replaceZ s = s := by
  unfold replaceZ replaceZChars
  rw [foldr_replaceZStep_of_not_mem h]
  cases s with
  | mk data => simp

end DD

namespace Opsight

theorem lookup_replace_eq {e : List (String × String)} (k v : String)
    (h : (e.lookup k).isSome = true) :
    (e.map (fun p => if p.1 = k then (k, v) else p)).lookup k = some v := by
  induction e with
  | nil => simp [List.lookup] at h
  | cons p t ih =>
    obtain ⟨pk, pv⟩ := p
    by_cases hp : pk = k
    · subst hp
      have hhead : (if (pk, pv).1 = pk then (pk, v) else (pk, pv)) = (pk, v) := by
        simp
      rw [List.map_cons, hhead]
      simp [List.lookup]
    · have hhead : (if (pk, pv).1 = k then (k, v) else (pk, pv)) = (pk, pv) := by
        simp [hp]
      have h1 : (k == pk) = false := beq_eq_false_iff_ne.mpr (fun e2 => hp e2.symm)
      have ht : (t.lookup k).isSome = true := by
        simpa [List.lookup, h1] using h
      rw [List.map_cons, hhead]
      simpa [List.lookup, h1] using ih ht

theorem lookup_append_single {e : List (String × String)} (k v : String)
    (h : e.lookup k = none) :
    (e ++ [(k, v)]).lookup k = some v := by
  induction e with
  | nil => simp [List.lookup]
  | cons p t ih =>
    rw [List.lookup] at h
    by_cases hp : (k == p.1) = true
    · rw [hp] at h
      exact Option.noConfusion h
    · have hne : (k == p.1) = false := by
        cases hb : (k == p.1) with
        | false => rfl
        | true => exact absurd hb hp
      rw [hne] at h
      rw [List.cons_append, List.lookup, hne]
      exact ih h

theorem lookup_dictSet (e : List (String × String)) (k v : String) :
    (dictSet e k v).lookup k = some v := by
  unfold dictSet
  by_cases h : (e.lookup k).isSome = true
  · rw [if_pos h]
    exact lookup_replace_eq k v h
  · rw [if_neg (by simp_all)]
    refine lookup_append_single k v ?_
    cases he : e.lookup k with
    | none => rfl
    | some w =>
      rw [he] at h
      exact absurd rfl h

theorem processLogs_error_of_missing_message {logs : List LogVal}
    (h : ∃ e, LogVal.obj e ∈ logs ∧ e.lookup "message" = none) :
    ∃ m, processLogs logs = .error m := by
  induction logs with
  | nil =>
    rcases h with ⟨e, he, _⟩
    cases he
  | cons v t ih =>
    cases v with
    | nonobj => exact ⟨_, rfl⟩
    | obj e0 =>
      rcases h with ⟨e, he, hm⟩
      rcases List.mem_cons.mp he with h1 | h2
      · have he0 : e = e0 := by
          injection h1
        subst he0
        have hs : (e.lookup "message").isSome = false := by
          rw [hm]
          rfl
        exact ⟨"Each log entry must contain a \u0027message\u0027 field",
          by simp [processLogs, hs]⟩
      · obtain ⟨m, hm2⟩ := ih ⟨e, h2, hm⟩
        by_cases hh : (e0.lookup "message").isSome = true
        · exact ⟨m, by simp [processLogs, hh, hm2, Except.map]⟩
        · exact ⟨"Each log entry must contain a \u0027message\u0027 field",
            by simp [processLogs, hh]⟩

end Opsight

/-- A backend stub that accepts every search call. -/
def okBackend : Model.Backend := fun _ => .ok ()

/-- A submission backend stub that accepts every batch. -/
def okSubmitBackend : Opsight.SubmitBackend := fun _ => .ok ()

/-- Claim C1: for every valid relative range token in the closed enumeration
(15m, 30m, 1h, 4h, 24h, 1d, 7d), the resolved window satisfies
`to - from = duration(token)` with `to` equal to the (naive UTC) `now` at
resolution time; the enumeration is exactly that set, with 24h and 1d both
one day. -/
theorem relative_window_matches_duration :
    (Service.timerangeDurationUs "15m" = some 900000000 ∧
     Service.timerangeDurationUs "30m" = some 1800000000 ∧
     Service.timerangeDurationUs "1h" = some 3600000000 ∧
     Service.timerangeDurationUs "4h" = some 14400000000 ∧
     Service.timerangeDurationUs "24h" = some 86400000000 ∧
     Service.timerangeDurationUs "1d" = some 86400000000 ∧
     Service.timerangeDurationUs "7d" = some 604800000000) ∧
    (∀ t, (Service.timerangeDurationUs t).isSome = true ↔
      (t = "15m" ∨ t = "30m" ∨ t = "1h" ∨ t = "4h" ∨ t = "24h" ∨
       t = "1d" ∨ t = "7d")) ∧
    (∀ (nowUs : Int) (token : String) (d : Int),
      Service.timerangeDurationUs token = some d →
      ∃ fr toT, Service.resolveTimerange nowUs token = some (fr, toT) ∧
        toT.usec - fr.usec = d ∧ toT = ⟨nowUs, none⟩ ∧ fr.tzOffsetMin = none) := by
  refine ⟨⟨rfl, rfl, rfl, rfl, rfl, rfl, rfl⟩, ?_, ?_⟩
  · intro t
    unfold Service.timerangeDurationUs
    split_ifs with h1 h2 h3 h4 h5 h6 h7 <;> simp_all
  · intro nowUs token d h
    refine ⟨⟨nowUs - d, none⟩, ⟨nowUs, none⟩, ?_, by ring, rfl, rfl⟩
    simp [Service.resolveTimerange, h, DD.sub]

/-- Claim C1 witness: the 1h token resolves to a window ending at now and
exactly one hour long. -/
theorem relative_window_matches_duration_witness :
    Service.timerangeDurationUs "1h" = some 3600000000 ∧
    ∃ fr toT, Service.resolveTimerange 1700000000000000 "1h" = some (fr, toT) ∧
      toT.usec - fr.usec = 3600000000 ∧ toT = ⟨1700000000000000, none⟩ ∧
      fr.tzOffsetMin = none :=
  ⟨rfl, relative_window_matches_duration.2.2 1700000000000000 "1h" 3600000000 rfl⟩

/-- Claim C2: a relative-range request whose supplied (present, nonempty)
token is outside the closed enumeration fails with the 400 invalid-timerange
error and makes no backend search call. -/
theorem unknown_timerange_rejected (data : Service.TimerangeRequest)
    (nowUs : Int) (backend : Model.Backend) (t : String)
    (hs : Model.truthy data.service = true)
    (ht : data.timerange = some t) (htn : t ≠ "")
    (hd : Service.timerangeDurationUs t = none) :
    Service.search_logs_with_timerange (some data) nowUs backend =
      (Model.HResp.err 400 Service.invalidTimerangeMsg, []) := by
  have htr : Model.truthy (some t) = true := by
    unfold Model.truthy
    simp [htn]
  simp [Service.search_logs_with_timerange, hs, ht, htr,
    Service.resolveTimerange, hd]

/-- Claim C2 witness: the token 9x is rejected with the invalid-timerange
message and no backend call. -/
theorem unknown_timerange_rejected_witness :
    Service.search_logs_with_timerange
      (some ⟨some "my-app", some "9x", none, none⟩) 1700000000000000 okBackend =
      (Model.HResp.err 400 Service.invalidTimerangeMsg, []) :=
  unknown_timerange_rejected _ _ _ "9x" rfl rfl (by decide) rfl

/-- Claim C3 counterexample: the logs_querier (v1) client transmits a
caller-requested limit of 2000 unchanged, violating the claimed
`limit ≤ 1000` invariant for that handler. -/
theorem limit_clamp_counterexample :
    (LogsQuerier.search_logs_payload "service:my-app" "2024-01-01T00:00:00"
        "2024-01-02T00:00:00" 2000).limit = 2000 ∧
    ¬((LogsQuerier.search_logs_payload "service:my-app" "2024-01-01T00:00:00"
        "2024-01-02T00:00:00" 2000).limit ≤ 1000) :=
  ⟨rfl, by decide⟩

/-- Claim C3 amended: only the opsight (v2) client clamps the transmitted
page limit, to `min(limit, 1000)`; the logs_querier (v1) client transmits
the caller-requested limit unchanged; no positive lower bound is enforced by
either. -/
theorem limit_clamp_amended (q f t : String) (l : Int) :
    (Opsight.search_logs_payload q f t l).pageLimit = min l 1000 ∧
    (Opsight.search_logs_payload q f t l).pageLimit ≤ 1000 ∧
    (LogsQuerier.search_logs_payload q f t l).limit = l :=
  ⟨rfl, min_le_right l 1000, rfl⟩

namespace Model

theorem dispatch_mem {q s e : String} {tr : Option String} {l : Int}
    {backend : Backend} {call : BackendCall}
    (h : call ∈ (dispatch q s e tr l backend).snd) :
    call = ⟨q, s, e, l⟩ := by
  unfold dispatch at h
  cases hb : backend ⟨q, s, e, l⟩ with
  | ok u =>
    rw [hb] at h
    simpa using h
  | error m =>
    rw [hb] at h
    simpa using h

end Model

namespace Service

theorem resolveTimerange_shape {nowUs : Int} {t : String}
    {fr toT : DD.PyDateTime}
    (h : resolveTimerange nowUs t = some (fr, toT)) :
    ∃ d, fr = ⟨nowUs - d, none⟩ ∧ toT = ⟨nowUs, none⟩ := by
  unfold resolveTimerange at h
  cases hd : timerangeDurationUs t with
  | none =>
    rw [hd] at h
    exact Option.noConfusion h
  | some d =>
    rw [hd] at h
    simp [DD.sub] at h
    exact ⟨d, h.1.symm, h.2.symm⟩

end Service

/-- Claim C4 counterexample: a successfully resolved relative window
(token 1h) is transmitted by the timerange handler as naive `isoformat()`
strings with no `Z` and no offset suffix. -/
theorem iso_suffix_counterexample :
    (Service.search_logs_with_timerange
        (some ⟨some "my-app", some "1h", none, none⟩) 1700000000123456
        okBackend).snd =
      [⟨"service:my-app", "2023-11-14T21:13:20.123456",
        "2023-11-14T22:13:20.123456", 50⟩] ∧
    DD.hasTzSuffix "2023-11-14T21:13:20.123456" = false ∧
    DD.hasTzSuffix "2023-11-14T22:13:20.123456" = false ∧
    DD.endsWithZ "2023-11-14T21:13:20.123456" = false :=
  ⟨rfl, rfl, rfl, rfl⟩

/-- Claim C4 amended: only the opsight `/logs/search` handler normalizes its
window to strings with an explicit `Z` suffix (both in the defaulted and the
absolute branch); the `/logs/search/timerange` handlers of both services call
plain `isoformat()` on naive datetimes, so every transmitted relative window
carries no `Z` and no offset suffix. -/
theorem iso_suffix_amended :
    (∀ body nowUs backend,
      ∀ call ∈ (Opsight.search_logs body nowUs backend).snd,
        DD.endsWithZ call.fromTime = true ∧ DD.endsWithZ call.toTime = true) ∧
    (∀ body nowUs backend,
      ∀ call ∈ (Service.search_logs_with_timerange body nowUs backend).snd,
        DD.hasTzSuffix call.fromTime = false ∧
        DD.hasTzSuffix call.toTime = false) := by
  constructor
  · intro body nowUs backend call hc
    simp only [Opsight.search_logs] at hc
    split at hc
    · have he := Model.dispatch_mem hc
      subst he
      exact ⟨DD.endsWithZ_append _, DD.endsWithZ_append _⟩
    · split at hc
      · have he := Model.dispatch_mem hc
        subst he
        exact ⟨DD.endsWithZ_append _, DD.endsWithZ_append _⟩
      · simp at hc
  · intro body nowUs backend call hc
    match body with
    | none => simp [Service.search_logs_with_timerange] at hc
    | some data =>
      simp only [Service.search_logs_with_timerange] at hc
      split at hc
      · simp at hc
      · split at hc
        · simp at hc
        · rename_i startT endT heq
          obtain ⟨d, hfr, hto⟩ := Service.resolveTimerange_shape heq
          have he := Model.dispatch_mem hc
          subst he
          constructor
          · rw [hfr]
            exact DD.hasTzSuffix_isoformat_naive _
          · rw [hto]
            exact DD.hasTzSuffix_isoformat_naive _

/-- Claim C4 amended witness: concrete calls produced by the two handlers,
with and without the `Z` suffix respectively. -/
theorem iso_suffix_amended_witness :
    ((Opsight.search_logs none 1700000000123456 okBackend).snd.headD
        ⟨"", "", "", 0⟩ ∈ (Opsight.search_logs none 1700000000123456 okBackend).snd) ∧
    DD.endsWithZ ((Opsight.search_logs none 1700000000123456 okBackend).snd.headD
        ⟨"", "", "", 0⟩).fromTime = true ∧
    DD.hasTzSuffix ((Service.search_logs_with_timerange
        (some ⟨some "my-app", some "1h", none, none⟩) 1700000000123456
        okBackend).snd.headD ⟨"", "", "", 0⟩).fromTime = false := by
  refine ⟨by decide, ?_, ?_⟩
  · exact (iso_suffix_amended.1 none 1700000000123456 okBackend _ (by decide)).1
  · exact (iso_suffix_amended.2 (some ⟨some "my-app", some "1h", none, none⟩)
      1700000000123456 okBackend _ (by decide)).1

/-- Claim C5: for every submitted entry, an absent `service` is defaulted to
the fixed namespace `opsight`; a different value is rewritten to
`opsight.<original>`; the value `opsight` itself leaves the entry unchanged. -/
theorem submit_service_namespacing (log : List (String × String)) :
    (log.lookup "service" = none →
      (Opsight.processServiceField log).lookup "service" = some "opsight") ∧
    (∀ s, log.lookup "service" = some s → s ≠ "opsight" →
      (Opsight.processServiceField log).lookup "service" =
        some ("opsight." ++ s)) ∧
    (log.lookup "service" = some "opsight" →
      Opsight.processServiceField log = log) := by
  refine ⟨?_, ?_, ?_⟩
  · intro h
    unfold Opsight.processServiceField
    rw [h]
    exact Opsight.lookup_dictSet log "service" "opsight"
  · intro s h hne
    unfold Opsight.processServiceField
    rw [h]
    have hb : (s == "opsight") = false := beq_eq_false_iff_ne.mpr hne
    simp only [hb, Bool.false_eq_true, if_false]
    exact Opsight.lookup_dictSet log "service" ("opsight." ++ s)
  · intro h
    unfold Opsight.processServiceField
    rw [h]
    simp

/-- Claim C5 witness: the three namespacing cases at concrete entries. -/
theorem submit_service_namespacing_witness :
    (Opsight.processServiceField [("message", "hi")]).lookup "service" =
      some "opsight" ∧
    (Opsight.processServiceField
        [("message", "hi"), ("service", "foo")]).lookup "service" =
      some "opsight.foo" ∧
    Opsight.processServiceField [("message", "hi"), ("service", "opsight")] =
      [("message", "hi"), ("service", "opsight")] :=
  ⟨(submit_service_namespacing _).1 rfl,
   (submit_service_namespacing _).2.1 "foo" rfl (by decide),
   (submit_service_namespacing _).2.2 rfl⟩

/-- Claim C6: a submission batch containing an entry without a `message`
field fails whole with a 400 validation error, and the submission backend is
never invoked (nothing from the batch is sent). -/
theorem missing_message_rejects_batch (body : Opsight.LogsField)
    (backend : Opsight.SubmitBackend)
    (h : ∃ e, Opsight.LogVal.obj e ∈ Opsight.normalizeLogs body ∧
         e.lookup "message" = none) :
    (∃ m, (Opsight.submit_logs (some body) backend).fst =
      Opsight.SubmitResp.err 400 m) ∧
    (Opsight.submit_logs (some body) backend).snd = [] := by
  obtain ⟨m, hm⟩ := Opsight.processLogs_error_of_missing_message h
  exact ⟨⟨m, by simp [Opsight.submit_logs, hm]⟩,
         by simp [Opsight.submit_logs, hm]⟩

/-- Claim C6 witness: a two-entry batch whose second entry lacks `message`
is rejected with no backend call. -/
theorem missing_message_rejects_batch_witness :
    (∃ m, (Opsight.submit_logs
        (some (Opsight.LogsField.array
          [Opsight.LogVal.obj [("message", "ok")],
           Opsight.LogVal.obj [("service", "web")]])) okSubmitBackend).fst =
      Opsight.SubmitResp.err 400 m) ∧
    (Opsight.submit_logs
        (some (Opsight.LogsField.array
          [Opsight.LogVal.obj [("message", "ok")],
           Opsight.LogVal.obj [("service", "web")]])) okSubmitBackend).snd = [] :=
  missing_message_rejects_batch _ _ ⟨[("service", "web")], by decide, rfl⟩

/-- Claim C7: an absolute timestamp resolves to the same parsed instant
whether it is written with a trailing `Z` or with an explicit `+00:00`
offset, because the handler replaces `Z` by `+00:00` before parsing. -/
theorem absolute_z_offset_equivalent (body : String)
    (hz : 'Z' ∉ body.toList)
    (_hp : (DD.parse_timestamp (body ++ "+00:00")).isSome = true) :
    DD.parse_timestamp (body ++ "Z") = DD.parse_timestamp (body ++ "+00:00") := by
  have h2 : 'Z' ∉ (body ++ "+00:00").toList := by
    have hl : (body ++ "+00:00").toList = body.toList ++ "+00:00".toList := by
      simp [String.toList]
    rw [hl]
    intro hm
    rcases List.mem_append.mp hm with h3 | h3
    · exact hz h3
    · exact absurd h3 (by decide)
  unfold DD.parse_timestamp
  rw [DD.replaceZ_append_Z body hz, DD.replaceZ_id_of_no_Z _ h2]

/-- Claim C7 witness: the two spellings of midnight 2024-01-01 UTC resolve
identically. -/
theorem absolute_z_offset_equivalent_witness :
    ('Z' ∉ ("2024-01-01T00:00:00").toList) ∧
    (DD.parse_timestamp ("2024-01-01T00:00:00" ++ "+00:00")).isSome = true ∧
    DD.parse_timestamp ("2024-01-01T00:00:00" ++ "Z") =
      DD.parse_timestamp ("2024-01-01T00:00:00" ++ "+00:00") :=
  ⟨by decide, rfl,
   absolute_z_offset_equivalent "2024-01-01T00:00:00" (by decide) rfl⟩

/-- Claim C8: when neither `start_time` nor `end_time` is supplied to the
zero-argument-tolerant search route, the window is exactly
`from = now - 1h` and `to = from + 5m` (a five-minute window), and that
window is what reaches the backend (with the trailing `Z`). -/
theorem default_window_five_minutes (data : Opsight.SearchRequest)
    (nowUs : Int) (backend : Model.Backend)
    (h1 : data.start_time = none) (h2 : data.end_time = none) :
    (Opsight.defaultWindow nowUs).1 = nowUs - 3600000000 ∧
    (Opsight.defaultWindow nowUs).2 = (Opsight.defaultWindow nowUs).1 + 300000000 ∧
    (Opsight.search_logs (some data) nowUs backend).snd =
      [⟨data.query.getD "datadog-agent",
        DD.isoformat ⟨(Opsight.defaultWindow nowUs).1, none⟩ ++ "Z",
        DD.isoformat ⟨(Opsight.defaultWindow nowUs).2, none⟩ ++ "Z",
        data.limit.getD 5⟩] := by
  refine ⟨rfl, rfl, ?_⟩
  simp only [Opsight.search_logs, h1, h2, Option.isNone_none, Bool.true_or,
    Option.getD_some, if_true]
  unfold Model.dispatch
  split <;> rfl

/-- Claim C8 witness: the defaulted window at a concrete `now`. -/
theorem default_window_five_minutes_witness :
    (Opsight.search_logs (some ⟨none, none, none, none⟩) 1700000000123456
        okBackend).snd =
      [⟨"datadog-agent",
        DD.isoformat ⟨(Opsight.defaultWindow 1700000000123456).1, none⟩ ++ "Z",
        DD.isoformat ⟨(Opsight.defaultWindow 1700000000123456).2, none⟩ ++ "Z",
        5⟩] :=
  (default_window_five_minutes ⟨none, none, none, none⟩ 1700000000123456
    okBackend rfl rfl).2.2

/-- Claim C9: the heartbeat loop never terminates from a failed tick: every
iteration, under any combination of status-construction, submission and
local-logging failures, ends by sleeping and continuing, and after any
number of ticks the loop is still running. -/
theorem heartbeat_loop_never_dies :
    (∀ env, Heartbeat.periodicStep env = Heartbeat.StepOutcome.continued true) ∧
    (∀ envs n, Heartbeat.periodicRun envs n = Heartbeat.LoopState.running) := by
  have hstep : ∀ env, Heartbeat.periodicStep env =
      Heartbeat.StepOutcome.continued true := by
    intro env
    unfold Heartbeat.periodicStep
    cases Heartbeat.tickBody env <;> rfl
  refine ⟨hstep, ?_⟩
  intro envs n
  induction n with
  | zero => rfl
  | succ k ih =>
    unfold Heartbeat.periodicRun
    rw [ih, hstep (envs k)]

/-- Claim C10: an empty-string required parameter on the service-oriented
search routes behaves exactly like an absent one: the request fails with the
missing-required-parameters 400 error and no backend call is made. -/
theorem empty_string_treated_as_absent :
    (∀ (data : Service.TimerangeRequest) (nowUs : Int) (backend : Model.Backend),
      Service.search_logs_with_timerange
          (some { data with service := some "" }) nowUs backend =
        Service.search_logs_with_timerange
          (some { data with service := none }) nowUs backend) ∧
    (∀ (data : Service.TimerangeRequest) (nowUs : Int) (backend : Model.Backend),
      Service.search_logs_with_timerange
          (some { data with timerange := some "" }) nowUs backend =
        Service.search_logs_with_timerange
          (some { data with timerange := none }) nowUs backend) ∧
    (∀ (data : Service.TimerangeRequest) (nowUs : Int) (backend : Model.Backend),
      data.service = some "" ∨ data.timerange = some "" →
      Service.search_logs_with_timerange (some data) nowUs backend =
        (Model.HResp.err 400 "Missing required parameters: service, timerange",
         [])) ∧
    (∀ (data : LogsQuerier.QSearchRequest) (backend : Model.Backend),
      data.service = some "" ∨ data.start_time = some "" ∨
        data.end_time = some "" →
      LogsQuerier.search_logs (some data) backend =
        (Model.HResp.err 400
          "Missing required parameters: service, start_time, end_time", [])) := by
  refine ⟨fun data nowUs backend => rfl, ?_, ?_, ?_⟩
  · intro data nowUs backend
    simp [Service.search_logs_with_timerange, Model.truthy]
  · intro data nowUs backend h
    rcases h with h | h <;>
      simp [Service.search_logs_with_timerange, Model.truthy, h]
  · intro data backend h
    rcases h with h | h | h <;>
      simp [LogsQuerier.search_logs, Model.truthy, h]

/-- Claim C10 witness: empty `service` on the timerange route and empty
`start_time` on the querier route are rejected as missing parameters. -/
theorem empty_string_treated_as_absent_witness :
    ((⟨some "", some "1h", none, none⟩ : Service.TimerangeRequest).service =
      some "") ∧
    Service.search_logs_with_timerange (some ⟨some "", some "1h", none, none⟩)
        1700000000000000 okBackend =
      (Model.HResp.err 400 "Missing required parameters: service, timerange",
       []) ∧
    LogsQuerier.search_logs (some ⟨some "svc", some "", some "x", none, none⟩)
        okBackend =
      (Model.HResp.err 400
        "Missing required parameters: service, start_time, end_time", []) :=
  ⟨rfl,
   empty_string_treated_as_absent.2.2.1 _ _ _ (Or.inl rfl),
   empty_string_treated_as_absent.2.2.2 _ _ (Or.inr (Or.inl rfl))⟩
